import Mathlib

/-!
Shallow embedding of the crypto front-end API (src/api/favorites.py,
src/api/paper_trades.py, src/api/watchlist.py).

Modelling conventions:
* SQLite REAL columns are modelled as rationals (ℚ); nullable columns as
  Option values.
* The SQLite aggregate semantics are modelled faithfully: SUM and AVG skip
  NULL inputs and return NULL when no non-NULL input exists; COUNT(expr)
  counts non-NULL rows; a NULL comparison inside CASE WHEN is falsy.
* Each HTTP handler becomes a pure function from the request payload and the
  current table contents to an Except value: ok carries the response payload
  and, for mutating handlers, the new table contents; error carries the HTTP
  status code and detail.  The source rolls the transaction back on every
  error path, so an error leaves the table untouched, which the embedding
  expresses by not returning a table on the error path.
* Timestamps (created_at, updated_at, favorite_added_at) are modelled as a
  Nat tick supplied by the caller where an ordering claim needs them and
  omitted otherwise; the wall clock itself is irrelevant to every claim.
* The Python str.upper method is modelled by pyUpper, an ASCII character map
  over the string data (symbols in this system are ASCII tickers).
* The CHECK constraints of the paper_trades DDL (direction IN (LONG, SHORT),
  status IN (planned, active, closed)) and the UNIQUE constraint on the
  favorites and watchlist symbol columns are modelled inside the insert
  steps: a violated constraint surfaces as the generic 500 handler of the
  source (sqlite3.IntegrityError is not an HTTPException, so the generic
  except branch turns it into a 500 after a rollback).
-/

/-- An HTTP-level error: FastAPI HTTPException with a status code and a
human-readable detail string. -/
inductive ApiError where
  | http (code : Nat) (detail : String)
deriving DecidableEq, Repr

/-- Status code of an error outcome, none on success. -/
def errCode {α : Type} : Except ApiError α → Option Nat
  | .error (.http c _) => some c
  | .ok _ => none

/-- True when the outcome is a success (HTTP 200). -/
def apiOk {α : Type} : Except ApiError α → Bool
  | .ok _ => true
  | .error _ => false

/-- Payload of a success outcome, none on error. -/
def okOf {α : Type} : Except ApiError α → Option α
  | .ok a => some a
  | .error _ => none

/-- Model of the Python str.upper method on ASCII ticker symbols: uppercase
every character of the string. -/
def pyUpper (s : String) : String := ⟨s.data.map Char.toUpper⟩

/-- Model of the Python idiom value or default for optional strings: the
default replaces both None and the empty (falsy) string. -/
def pyOr (o : Option String) (d : String) : String :=
  match o with
  | some s => if s = "" then d else s
  | none => d

/-- SQLite SUM over a column of nullable rationals: NULL inputs are skipped
and the result is NULL when no non-NULL input exists (in particular over an
empty table). -/
def sqlSum (terms : List (Option ℚ)) : Option ℚ :=
  let vs := terms.filterMap id
  if vs.isEmpty then none else some vs.sum

/-- SQLite AVG over a column of nullable rationals: NULL inputs are skipped,
NULL when no non-NULL input exists. -/
def sqlAvg (terms : List (Option ℚ)) : Option ℚ :=
  let vs := terms.filterMap id
  if vs.isEmpty then none else some (vs.sum / (vs.length : ℚ))

/-! ## Paper trades (src/api/paper_trades.py) -/

/-- Request body of POST /paper-trades (class PaperTradeCreate). -/
structure PaperTradeCreate where
  symbol : String
  alert_id : Option Int
  direction : String
  entry_price : ℚ
  stop_loss : ℚ
  take_profit : ℚ
  quantity : ℚ
  risk_amount : ℚ
  risk_percentage : ℚ
  position_value : ℚ
  potential_loss : ℚ
  potential_profit : ℚ
  risk_reward : ℚ
  status : String
  notes : Option String
deriving DecidableEq, Repr

/-- Request body of PUT /paper-trades/id (class PaperTradeUpdate): every
field optional, only supplied fields change. -/
structure PaperTradeUpdate where
  status : Option String
  exit_price : Option ℚ
  exit_time : Option String
  actual_profit_loss : Option ℚ
  notes : Option String
deriving DecidableEq, Repr

/-- A row of the paper_trades table.  The column risk_reward_ratio of the
DDL is carried in the field risk_reward; created_at and updated_at are not
modelled (no claim depends on them). -/
structure PaperTradeRow where
  id : Nat
  symbol : String
  alert_id : Option Int
  direction : String
  entry_price : ℚ
  stop_loss : ℚ
  take_profit : ℚ
  quantity : ℚ
  risk_amount : ℚ
  risk_percentage : ℚ
  position_value : ℚ
  potential_loss : ℚ
  potential_profit : ℚ
  risk_reward : ℚ
  status : String
  exit_price : Option ℚ
  exit_time : Option String
  actual_profit_loss : Option ℚ
  notes : Option String
deriving DecidableEq, Repr

/-- The DDL CHECK constraint direction IN (LONG, SHORT). -/
def validDirection (d : String) : Bool := d == "LONG" || d == "SHORT"

/-- The DDL CHECK constraint status IN (planned, active, closed). -/
def validStatus (s : String) : Bool :=
  s == "planned" || s == "active" || s == "closed"

/-- Row built by the INSERT of create_paper_trade: symbol upper-cased, exit
fields NULL. -/
def tradeRowOf (t : PaperTradeCreate) (id : Nat) : PaperTradeRow :=
  { id := id
    symbol := pyUpper t.symbol
    alert_id := t.alert_id
    direction := t.direction
    entry_price := t.entry_price
    stop_loss := t.stop_loss
    take_profit := t.take_profit
    quantity := t.quantity
    risk_amount := t.risk_amount
    risk_percentage := t.risk_percentage
    position_value := t.position_value
    potential_loss := t.potential_loss
    potential_profit := t.potential_profit
    risk_reward := t.risk_reward
    status := t.status
    exit_price := none
    exit_time := none
    actual_profit_loss := none
    notes := t.notes }

/-- The INSERT INTO paper_trades step, including the CHECK constraints of
the DDL: a violated constraint raises sqlite3.IntegrityError, which the
generic except branch of the handler converts to a 500 after a rollback. -/
def insertPaperTrade (t : PaperTradeCreate) (db : List PaperTradeRow) (id : Nat) :
    Except ApiError (List PaperTradeRow) :=
  if validDirection t.direction && validStatus t.status then
    .ok (db ++ [tradeRowOf t id])
  else
    .error (.http 500 "trade creation failed: CHECK constraint failed")

/-- Handler of POST /paper-trades (create_paper_trade): the validation
chain of the source in order, then the INSERT. -/
def create_paper_trade (t : PaperTradeCreate) (db : List PaperTradeRow) (id : Nat) :
    Except ApiError (List PaperTradeRow) :=
  if ¬ (validDirection t.direction = true) then
    .error (.http 400 "direction must be LONG or SHORT")
  else if t.entry_price ≤ 0 then
    .error (.http 400 "entry price must be greater than 0")
  else if t.quantity ≤ 0 then
    .error (.http 400 "quantity must be greater than 0")
  else if t.direction == "LONG" then
    if t.stop_loss ≥ t.entry_price then
      .error (.http 400 "for LONG the stop loss must be below the entry price")
    else if t.take_profit ≤ t.entry_price then
      .error (.http 400 "for LONG the take profit must be above the entry price")
    else insertPaperTrade t db id
  else
    if t.stop_loss ≤ t.entry_price then
      .error (.http 400 "for SHORT the stop loss must be above the entry price")
    else if t.take_profit ≥ t.entry_price then
      .error (.http 400 "for SHORT the take profit must be below the entry price")
    else insertPaperTrade t db id

/-- Partial update of one row by PUT /paper-trades/id: only supplied fields
change. -/
def applyTradeUpdate (u : PaperTradeUpdate) (r : PaperTradeRow) : PaperTradeRow :=
  { r with
    status := match u.status with | some s => s | none => r.status
    exit_price := match u.exit_price with | some v => some v | none => r.exit_price
    exit_time := match u.exit_time with | some v => some v | none => r.exit_time
    actual_profit_loss :=
      match u.actual_profit_loss with | some v => some v | none => r.actual_profit_loss
    notes := match u.notes with | some v => some v | none => r.notes }

/-- Handler of PUT /paper-trades/id (update_paper_trade): 404 when the id is
unknown, then 400 when a supplied status is outside the enum, then the
UPDATE. -/
def update_paper_trade (id : Nat) (u : PaperTradeUpdate) (db : List PaperTradeRow) :
    Except ApiError (List PaperTradeRow) :=
  if (db.find? (fun r => r.id == id)).isSome then
    match u.status with
    | some s =>
      if ¬ (validStatus s = true) then
        .error (.http 400 "invalid trade status")
      else
        .ok (db.map (fun r => if r.id == id then applyTradeUpdate u r else r))
    | none =>
      .ok (db.map (fun r => if r.id == id then applyTradeUpdate u r else r))
  else
    .error (.http 404 "trade not found")

/-- Handler of GET /paper-trades (get_paper_trades): optional status and
symbol filters; a Python falsy (absent or empty) filter value is a no-op;
the symbol filter compares against the upper-cased request symbol.  The
ORDER BY created_at DESC of the source is not modelled (no claim depends on
the listing order of trades). -/
def get_paper_trades (st sy : Option String) (db : List PaperTradeRow) :
    Except ApiError (List PaperTradeRow) :=
  .ok (((db.filter (fun r =>
      match st with
      | some s => s == "" || r.status == s
      | none => true)).filter (fun r =>
      match sy with
      | some s => s == "" || r.symbol == pyUpper s
      | none => true)))

/-! ## Statistics (get_paper_trading_stats) -/

/-- Row predicate status = closed. -/
def isClosed (r : PaperTradeRow) : Bool := r.status == "closed"

/-- Truth of actual_profit_loss > 0 under SQL three-valued logic: a NULL
comparison is falsy inside CASE WHEN. -/
def pnlPos (r : PaperTradeRow) : Bool :=
  match r.actual_profit_loss with
  | some v => decide (0 < v)
  | none => false

/-- Truth of actual_profit_loss < 0 under SQL three-valued logic. -/
def pnlNeg (r : PaperTradeRow) : Bool :=
  match r.actual_profit_loss with
  | some v => decide (v < 0)
  | none => false

/-- Term of SUM(CASE WHEN status = closed AND actual_profit_loss > 0 THEN 1
ELSE 0 END): never NULL. -/
def winTerm (r : PaperTradeRow) : Option ℚ :=
  some (if isClosed r && pnlPos r then 1 else 0)

/-- Term of SUM(CASE WHEN status = closed AND actual_profit_loss < 0 THEN 1
ELSE 0 END): never NULL. -/
def loseTerm (r : PaperTradeRow) : Option ℚ :=
  some (if isClosed r && pnlNeg r then 1 else 0)

/-- Term of SUM(CASE WHEN status = closed THEN actual_profit_loss ELSE 0
END): NULL exactly for a closed row whose actual_profit_loss is NULL. -/
def pnlTerm (r : PaperTradeRow) : Option ℚ :=
  if isClosed r then r.actual_profit_loss else some 0

/-- Term of AVG(CASE WHEN status = closed THEN actual_profit_loss ELSE NULL
END). -/
def avgTerm (r : PaperTradeRow) : Option ℚ :=
  if isClosed r then r.actual_profit_loss else none

/-- Result row of the general statistics query of get_paper_trading_stats.
The four COUNT columns are never NULL; the SUM and AVG columns are nullable
(NULL over an empty table). -/
structure GeneralStats where
  total_trades : Nat
  planned_trades : Nat
  active_trades : Nat
  closed_trades : Nat
  winning_trades : Option ℚ
  losing_trades : Option ℚ
  total_pnl : Option ℚ
  avg_pnl : Option ℚ
  total_risk_amount : Option ℚ
deriving DecidableEq, Repr

/-- The general statistics SELECT of get_paper_trading_stats. -/
def generalStats (db : List PaperTradeRow) : GeneralStats :=
  { total_trades := db.length
    planned_trades := db.countP (fun r => r.status == "planned")
    active_trades := db.countP (fun r => r.status == "active")
    closed_trades := db.countP (fun r => r.status == "closed")
    winning_trades := sqlSum (db.map winTerm)
    losing_trades := sqlSum (db.map loseTerm)
    total_pnl := sqlSum (db.map pnlTerm)
    avg_pnl := sqlAvg (db.map avgTerm)
    total_risk_amount := sqlSum (db.map (fun r => some r.risk_amount)) }

/-- Result row of the per-symbol GROUP BY query. -/
structure SymbolStats where
  symbol : String
  trades_count : Nat
  symbol_pnl : Option ℚ
deriving DecidableEq, Repr

/-- Result row of the per-direction GROUP BY query. -/
structure DirectionStats where
  direction : String
  trades_count : Nat
  direction_pnl : Option ℚ
  avg_pnl : Option ℚ
deriving DecidableEq, Repr

/-- Distinct keys of a GROUP BY, in first-occurrence order (SQLite leaves
the group output order unspecified absent an ORDER BY; first-occurrence
order is one admissible realisation). -/
def distinctKeys (keys : List String) : List String :=
  keys.foldl (fun acc k => if acc.contains k then acc else acc ++ [k]) []

/-- Aggregates of one symbol group. -/
def symbolStatsFor (db : List PaperTradeRow) (sym : String) : SymbolStats :=
  { symbol := sym
    trades_count := (db.filter (fun r => r.symbol == sym)).length
    symbol_pnl := sqlSum ((db.filter (fun r => r.symbol == sym)).map pnlTerm) }

/-- Stable insertion step of the ORDER BY trades_count DESC sort. -/
def insertByCount (a : SymbolStats) : List SymbolStats → List SymbolStats
  | [] => [a]
  | b :: rest =>
    if a.trades_count < b.trades_count then b :: insertByCount a rest
    else a :: b :: rest

/-- Stable sort by trades_count descending. -/
def sortByCountDesc : List SymbolStats → List SymbolStats
  | [] => []
  | a :: rest => insertByCount a (sortByCountDesc rest)

/-- The per-symbol statistics query: GROUP BY symbol ORDER BY trades_count
DESC LIMIT 10. -/
def statsBySymbol (db : List PaperTradeRow) : List SymbolStats :=
  (sortByCountDesc ((distinctKeys (db.map (fun r => r.symbol))).map
    (symbolStatsFor db))).take 10

/-- Aggregates of one direction group. -/
def directionStatsFor (db : List PaperTradeRow) (d : String) : DirectionStats :=
  { direction := d
    trades_count := (db.filter (fun r => r.direction == d)).length
    direction_pnl := sqlSum ((db.filter (fun r => r.direction == d)).map pnlTerm)
    avg_pnl := sqlAvg ((db.filter (fun r => r.direction == d)).map avgTerm) }

/-- The per-direction statistics query: GROUP BY direction. -/
def statsByDirection (db : List PaperTradeRow) : List DirectionStats :=
  (distinctKeys (db.map (fun r => r.direction))).map (directionStatsFor db)

/-- Response body of GET /paper-trades/stats. -/
structure StatsResponse where
  general : GeneralStats
  by_symbol : List SymbolStats
  by_direction : List DirectionStats
deriving DecidableEq, Repr

/-- Handler of GET /paper-trades/stats (get_paper_trading_stats): a pure
read, no failure path outside a storage fault. -/
def get_paper_trading_stats (db : List PaperTradeRow) : Except ApiError StatsResponse :=
  .ok { general := generalStats db
        by_symbol := statsBySymbol db
        by_direction := statsByDirection db }

/-! ## Favorites (src/api/favorites.py) -/

/-- Request body of POST /favorites (class FavoriteCreate). -/
structure FavoriteCreate where
  symbol : String
  notes : Option String
  color : Option String
deriving DecidableEq, Repr

/-- Request body of PUT /favorites/symbol (class FavoriteUpdate). -/
structure FavoriteUpdate where
  notes : Option String
  color : Option String
deriving DecidableEq, Repr

/-- A row of the favorites table.  created_at and updated_at are not
modelled; favorite_added_at is a Nat tick because the retrieval order ties
break on it. -/
structure FavoriteRow where
  id : Nat
  symbol : String
  is_active : Bool
  price_drop_percentage : Option ℚ
  current_price : Option ℚ
  historical_price : Option ℚ
  notes : Option String
  color : Option String
  sort_order : Int
  favorite_added_at : Nat
deriving DecidableEq, Repr

/-- SELECT MAX(sort_order) FROM favorites combined with the Python idiom
max_order or 0: NULL (empty table) becomes 0, a stored 0 stays 0. -/
def maxSortOrder (db : List FavoriteRow) : Int :=
  match (db.map (fun r => r.sort_order)).max? with
  | some m => if m = 0 then 0 else m
  | none => 0

/-- Handler of POST /favorites (add_favorite).  The duplicate check of the
source queries WHERE symbol = favorite.symbol with the raw request symbol;
the INSERT then stores the upper-cased symbol, so the UNIQUE constraint on
the symbol column can still fire when only the upper-cased form collides,
and that surfaces through the generic except branch as a 500. -/
def add_favorite (f : FavoriteCreate) (db : List FavoriteRow) (id tick : Nat) :
    Except ApiError (List FavoriteRow) :=
  if (db.find? (fun r => r.symbol == f.symbol)).isSome then
    .error (.http 400 ("pair " ++ f.symbol ++ " is already a favorite"))
  else if (db.find? (fun r => r.symbol == pyUpper f.symbol)).isSome then
    .error (.http 500 "favorite creation failed: UNIQUE constraint failed")
  else
    .ok (db ++ [{ id := id
                  symbol := pyUpper f.symbol
                  is_active := true
                  price_drop_percentage := none
                  current_price := none
                  historical_price := none
                  notes := f.notes
                  color := some (pyOr f.color "#FFD700")
                  sort_order := maxSortOrder db + 1
                  favorite_added_at := tick }])

/-- Handler of PUT /favorites/symbol (update_favorite): 404 when the
upper-cased symbol is unknown, otherwise only supplied fields change. -/
def update_favorite (symbol : String) (f : FavoriteUpdate) (db : List FavoriteRow) :
    Except ApiError (List FavoriteRow) :=
  if (db.find? (fun r => r.symbol == pyUpper symbol)).isSome then
    .ok (db.map (fun r =>
      if r.symbol == pyUpper symbol then
        { r with
          notes := match f.notes with | some n => some n | none => r.notes
          color := match f.color with | some c => some c | none => r.color }
      else r))
  else
    .error (.http 404 ("pair " ++ symbol ++ " not found in favorites"))

/-- Handler of DELETE /favorites/symbol (remove_favorite): 404 when the
upper-cased symbol is unknown, otherwise DELETE WHERE symbol matches. -/
def remove_favorite (symbol : String) (db : List FavoriteRow) :
    Except ApiError (List FavoriteRow) :=
  if (db.find? (fun r => r.symbol == pyUpper symbol)).isSome then
    .ok (db.filter (fun r => !(r.symbol == pyUpper symbol)))
  else
    .error (.http 404 ("pair " ++ symbol ++ " not found in favorites"))

/-- One UPDATE favorites SET sort_order = index WHERE symbol = upper(s) step
of the reorder loop. -/
def applyReorderStep (p : Nat × String) (db : List FavoriteRow) : List FavoriteRow :=
  db.map (fun r =>
    if r.symbol == pyUpper p.2 then { r with sort_order := (p.1 : Int) } else r)

/-- The reorder loop over the enumerated symbol list. -/
def applyReorderAux (db : List FavoriteRow) : List (Nat × String) → List FavoriteRow
  | [] => db
  | p :: rest => applyReorderAux (applyReorderStep p db) rest

/-- Handler of POST /favorites/reorder (reorder_favorites): for index,
symbol in enumerate(symbol_order), set sort_order = index on the row whose
symbol equals the upper-cased list entry; a symbol matching no row updates
nothing and raises nothing. -/
def reorder_favorites (L : List String) (db : List FavoriteRow) :
    Except ApiError (List FavoriteRow) :=
  .ok (applyReorderAux db L.enum)

/-- Strict precedence of the ORDER BY sort_order ASC, favorite_added_at DESC
retrieval order: b must come before a. -/
def favBefore (b a : FavoriteRow) : Bool :=
  decide (b.sort_order < a.sort_order) ||
    (b.sort_order == a.sort_order && decide (a.favorite_added_at < b.favorite_added_at))

/-- Stable insertion step of the favorites retrieval sort. -/
def insertFav (a : FavoriteRow) : List FavoriteRow → List FavoriteRow
  | [] => [a]
  | b :: rest => if favBefore b a then b :: insertFav a rest else a :: b :: rest

/-- Stable sort realising ORDER BY sort_order ASC, favorite_added_at DESC. -/
def sortFavorites : List FavoriteRow → List FavoriteRow
  | [] => []
  | a :: rest => insertFav a (sortFavorites rest)

/-- Handler of GET /favorites (get_favorites). -/
def get_favorites (db : List FavoriteRow) : Except ApiError (List FavoriteRow) :=
  .ok (sortFavorites db)

/-! ## Watchlist (src/api/watchlist.py) -/

/-- A row of the watchlist table (timestamps not modelled). -/
structure WatchlistRow where
  id : Nat
  symbol : String
  is_active : Bool
  is_favorite : Bool
  price_drop_percentage : Option ℚ
  current_price : Option ℚ
  historical_price : Option ℚ
deriving DecidableEq, Repr

/-- The UPDATE watchlist SET is_favorite = FALSE step. -/
def clearFavFlags (wl : List WatchlistRow) : List WatchlistRow :=
  wl.map (fun r => { r with is_favorite := false })

/-- The UPDATE watchlist SET is_favorite = TRUE WHERE symbol IN (SELECT
symbol FROM favorites) step. -/
def setFavFlags (favs : List FavoriteRow) (wl : List WatchlistRow) : List WatchlistRow :=
  wl.map (fun r =>
    if (favs.map (fun f => f.symbol)).contains r.symbol then
      { r with is_favorite := true }
    else r)

/-- The helper update_watchlist_favorites of the source.  A storage failure
inside it (modelled by the fault flag) is caught, logged and rolled back
without re-raising, so the table is left with its previous flags and no
error escapes to the caller. -/
def update_watchlist_favorites (fault : Bool) (favs : List FavoriteRow)
    (wl : List WatchlistRow) : List WatchlistRow :=
  if fault then wl else setFavFlags favs (clearFavFlags wl)

/-- Lexicographic character comparison: the SQLite BINARY collation of
ORDER BY symbol ASC on ASCII ticker text. -/
def charListLt : List Char → List Char → Bool
  | [], [] => false
  | [], _ :: _ => true
  | _ :: _, [] => false
  | a :: as, b :: bs => if a < b then true else if b < a then false else charListLt as bs

/-- String comparison realising the BINARY text ordering. -/
def strLt (a b : String) : Bool := charListLt a.data b.data

/-- Strict precedence of the ORDER BY is_favorite DESC, symbol ASC
retrieval order of the watchlist. -/
def wlBefore (b a : WatchlistRow) : Bool :=
  (b.is_favorite && ¬ a.is_favorite) ||
    (b.is_favorite == a.is_favorite && strLt b.symbol a.symbol)

/-- Stable insertion step of the watchlist retrieval sort. -/
def insertWl (a : WatchlistRow) : List WatchlistRow → List WatchlistRow
  | [] => [a]
  | b :: rest => if wlBefore b a then b :: insertWl a rest else a :: b :: rest

/-- Stable sort realising ORDER BY is_favorite DESC, symbol ASC. -/
def sortWatchlist : List WatchlistRow → List WatchlistRow
  | [] => []
  | a :: rest => insertWl a (sortWatchlist rest)

/-- Handler of GET /watchlist (get_watchlist): first the favorite-flag
recomputation (whose failure, fault = true, is swallowed), then the read. -/
def get_watchlist (fault : Bool) (favs : List FavoriteRow) (wl : List WatchlistRow) :
    Except ApiError (List WatchlistRow) :=
  .ok (sortWatchlist (update_watchlist_favorites fault favs wl))

/-- Handler of POST /watchlist (add_to_watchlist): the duplicate check and
the stored symbol both use the upper-cased request symbol. -/
def add_to_watchlist (symbol : String) (db : List WatchlistRow) (id : Nat) :
    Except ApiError (List WatchlistRow) :=
  if (db.find? (fun r => r.symbol == pyUpper symbol)).isSome then
    .error (.http 400 ("pair " ++ symbol ++ " is already on the watchlist"))
  else
    .ok (db ++ [{ id := id
                  symbol := pyUpper symbol
                  is_active := true
                  is_favorite := false
                  price_drop_percentage := none
                  current_price := none
                  historical_price := none }])

/-- Handler of PUT /watchlist/id (update_watchlist_item): 404 when the id is
unknown, otherwise set the upper-cased symbol and the activity flag. -/
def update_watchlist_item (item_id : Nat) (symbol : String) (active : Bool)
    (db : List WatchlistRow) : Except ApiError (List WatchlistRow) :=
  if (db.find? (fun r => r.id == item_id)).isSome then
    .ok (db.map (fun r =>
      if r.id == item_id then { r with symbol := pyUpper symbol, is_active := active }
      else r))
  else
    .error (.http 404 "watchlist item not found")

/-- Handler of DELETE /watchlist/id (remove_from_watchlist). -/
def remove_from_watchlist (item_id : Nat) (db : List WatchlistRow) :
    Except ApiError (List WatchlistRow) :=
  if (db.find? (fun r => r.id == item_id)).isSome then
    .ok (db.filter (fun r => !(r.id == item_id)))
  else
    .error (.http 404 "watchlist item not found")

/-! ## Claim-side definitions (formalising the wording of the spec) -/

/-- Rejection condition of the validation contract as the spec words it:
direction outside LONG and SHORT, non-positive entry price or quantity, or a
direction-inconsistent stop loss or take profit. -/
def specRejected (t : PaperTradeCreate) : Bool :=
  !validDirection t.direction ||
    decide (t.entry_price ≤ 0) ||
    decide (t.quantity ≤ 0) ||
    (t.direction == "LONG" &&
      (decide (t.stop_loss ≥ t.entry_price) || decide (t.take_profit ≤ t.entry_price))) ||
    (t.direction == "SHORT" &&
      (decide (t.stop_loss ≤ t.entry_price) || decide (t.take_profit ≥ t.entry_price)))

/-- Count of closed trades with realized profit-loss strictly above 0. -/
def specWinningCount (db : List PaperTradeRow) : Nat :=
  db.countP (fun r => isClosed r && pnlPos r)

/-- Count of closed trades with realized profit-loss strictly below 0. -/
def specLosingCount (db : List PaperTradeRow) : Nat :=
  db.countP (fun r => isClosed r && pnlNeg r)

/-- Sum of realized profit-loss over closed trades: a closed trade without a
realized value contributes nothing, a non-closed trade contributes 0. -/
def specTotalPnl (db : List PaperTradeRow) : ℚ :=
  (db.map (fun r => if isClosed r then r.actual_profit_loss.getD 0 else 0)).sum

/-- Realized profit-loss values of the closed trades that have one. -/
def specClosedPnls (db : List PaperTradeRow) : List ℚ :=
  (db.filter (fun r => isClosed r)).filterMap (fun r => r.actual_profit_loss)

/-- Sum of risk_amount over all trades regardless of status. -/
def specRiskSum (db : List PaperTradeRow) : ℚ :=
  (db.map (fun r => r.risk_amount)).sum

/-- Zero-based position, counted from n, of the first list entry whose
upper-cased form equals sym. -/
def posFrom (n : Nat) (sym : String) : List String → Option Int
  | [] => none
  | s :: rest => if pyUpper s == sym then some (n : Int) else posFrom (n + 1) sym rest

/-- Zero-based position of a symbol in a reorder list, comparing the
upper-cased entries: the sort_order the spec assigns to that symbol. -/
def specNewOrder (L : List String) (sym : String) : Option Int := posFrom 0 sym L

/-- Index of the last enumerated pair whose upper-cased symbol equals sym:
with duplicate list entries the later UPDATE of the reorder loop wins. -/
def lastMatch (sym : String) : List (Nat × String) → Option Int
  | [] => none
  | p :: rest =>
    match lastMatch sym rest with
    | some j => some j
    | none => if pyUpper p.2 == sym then some (p.1 : Int) else none

/-! ## Concrete fixtures -/

/-- The LONG example trade of section 8 of the spec: BTCUSDT entry 100 stop
95 take 110 quantity 1. -/
def exTradeOk : PaperTradeCreate :=
  { symbol := "BTCUSDT"
    alert_id := none
    direction := "LONG"
    entry_price := 100
    stop_loss := 95
    take_profit := 110
    quantity := 1
    risk_amount := 5
    risk_percentage := 5
    position_value := 100
    potential_loss := 5
    potential_profit := 10
    risk_reward := 2
    status := "planned"
    notes := none }

/-- The same trade carrying a status value outside the enum. -/
def exTradeBadStatus : PaperTradeCreate := { exTradeOk with status := "done" }

/-- A closed row with realized profit-loss 8. -/
def exClosedTrade : PaperTradeRow :=
  { tradeRowOf exTradeOk 1 with status := "closed", actual_profit_loss := some 8 }

/-- A planned row without realized profit-loss. -/
def exPlannedTrade : PaperTradeRow := tradeRowOf exTradeOk 2

/-- A two-trade record set: one closed winner, one still planned. -/
def exStatsDb : List PaperTradeRow := [exClosedTrade, exPlannedTrade]

/-- An update request carrying a status value outside the enum. -/
def exBadStatusUpdate : PaperTradeUpdate :=
  { status := some "done", exit_price := none, exit_time := none,
    actual_profit_loss := none, notes := none }

/-- A stored favorite with the upper-cased symbol BTCUSDT. -/
def favBTC : FavoriteRow :=
  { id := 1, symbol := "BTCUSDT", is_active := true, price_drop_percentage := none,
    current_price := none, historical_price := none, notes := none,
    color := some "#FFD700", sort_order := 1, favorite_added_at := 1 }

/-- A stored favorite with the upper-cased symbol ETHUSDT. -/
def favETH : FavoriteRow := { favBTC with symbol := "ETHUSDT" }

/-- A favorite request with a lower-cased duplicate symbol. -/
def reqLowerBTC : FavoriteCreate := { symbol := "btcusdt", notes := none, color := none }

/-- The same favorite request with the symbol already upper-cased. -/
def reqUpperBTC : FavoriteCreate := { symbol := "BTCUSDT", notes := none, color := none }

/-- A favorite request with a lower-cased duplicate of ETHUSDT. -/
def reqLowerETH : FavoriteCreate := { symbol := "ethusdt", notes := none, color := none }

/-- Favorite A, added first, sort_order 1. -/
def rowA : FavoriteRow :=
  { id := 1, symbol := "A", is_active := true, price_drop_percentage := none,
    current_price := none, historical_price := none, notes := none,
    color := some "#FFD700", sort_order := 1, favorite_added_at := 1 }

/-- Favorite B, added second, sort_order 2. -/
def rowB : FavoriteRow := { rowA with id := 2, symbol := "B", sort_order := 2, favorite_added_at := 2 }

/-- Favorite C, added third, sort_order 3. -/
def rowC : FavoriteRow := { rowA with id := 3, symbol := "C", sort_order := 3, favorite_added_at := 3 }

/-- The favorites table before the reorder request. -/
def dbABC : List FavoriteRow := [rowA, rowB, rowC]

/-- Row B after the reorder list B, A, C: position 0. -/
def rowB0 : FavoriteRow := { rowB with sort_order := 0 }

/-- Row C after the reorder list B, A, C: position 2. -/
def rowC2 : FavoriteRow := { rowC with sort_order := 2 }

/-- The favorites table after the reorder list B, A, C, in storage order. -/
def dbBAC : List FavoriteRow := [rowA, rowB0, rowC2]

/-- A watchlist row whose stored favorite flag is stale (true although the
favorites table is empty). -/
def wlStale : WatchlistRow :=
  { id := 1, symbol := "AAA", is_active := true, is_favorite := true,
    price_drop_percentage := none, current_price := none, historical_price := none }

/-- A stored favorite with symbol AAA. -/
def favAAA : FavoriteRow := { favBTC with symbol := "AAA" }

/-- A watchlist row for symbol AAA with a cleared favorite flag. -/
def wlAAA : WatchlistRow := { wlStale with is_favorite := false }

/-- The watchlist row for AAA after a recomputation that finds AAA among the
favorites. -/
def wlAAAfav : WatchlistRow := { wlAAA with is_favorite := true }

/-! ## Shared lemmas -/

/-- Presence of a find? result coincides with the any test. -/
theorem find?_isSome_eq_any {α : Type} (p : α → Bool) (l : List α) :
    (l.find? p).isSome = l.any p := by
  induction l with
  | nil => rfl
  | cons a l ih =>
    cases h : p a <;> simp [List.find?_cons, List.any_cons, h, ih]

/-- Removing the option layer from a column of non-NULL terms. -/
theorem filterMap_id_map_some {α : Type} (f : α → ℚ) (l : List α) :
    (l.map (fun a => some (f a))).filterMap id = l.map f := by
  induction l with
  | nil => rfl
  | cons a l ih => simp [ih]

/-- Sum of a 0-or-1 indicator column equals the count of rows passing the
test. -/
theorem sum_indicator {α : Type} (p : α → Bool) (l : List α) :
    (l.map (fun a => if p a then (1 : ℚ) else 0)).sum = (l.countP p : ℚ) := by
  induction l with
  | nil => simp
  | cons a l ih =>
    by_cases h : p a = true
    · simp only [List.map_cons, List.sum_cons, List.countP_cons, h, ih, if_true]
      push_cast
      ring
    · simp [List.countP_cons, h, ih]

/-- Skipping NULL terms of a SUM coincides with letting each NULL term
contribute 0. -/
theorem filterMap_id_sum_getD (l : List (Option ℚ)) :
    (l.filterMap id).sum = (l.map (fun o => o.getD 0)).sum := by
  induction l with
  | nil => rfl
  | cons a l ih => cases a <;> simp [ih]

/-- Membership is preserved by the favorites insertion step. -/
theorem mem_insertFav (a x : FavoriteRow) (l : List FavoriteRow) :
    x ∈ insertFav a l ↔ x = a ∨ x ∈ l := by
  induction l with
  | nil => simp [insertFav]
  | cons b rest ih =>
    simp only [insertFav]
    split
    · simp only [List.mem_cons, ih]
      tauto
    · simp only [List.mem_cons]

/-- Membership is preserved by the favorites retrieval sort. -/
theorem mem_sortFavorites (x : FavoriteRow) (l : List FavoriteRow) :
    x ∈ sortFavorites l ↔ x ∈ l := by
  induction l with
  | nil => simp [sortFavorites]
  | cons a rest ih => simp [sortFavorites, mem_insertFav, ih]

/-- Membership is preserved by the watchlist insertion step. -/
theorem mem_insertWl (a x : WatchlistRow) (l : List WatchlistRow) :
    x ∈ insertWl a l ↔ x = a ∨ x ∈ l := by
  induction l with
  | nil => simp [insertWl]
  | cons b rest ih =>
    simp only [insertWl]
    split
    · simp only [List.mem_cons, ih]
      tauto
    · simp only [List.mem_cons]

/-- Membership is preserved by the watchlist retrieval sort. -/
theorem mem_sortWatchlist (x : WatchlistRow) (l : List WatchlistRow) :
    x ∈ sortWatchlist l ↔ x ∈ l := by
  induction l with
  | nil => simp [sortWatchlist]
  | cons a rest ih => simp [sortWatchlist, mem_insertWl, ih]

/-- A symbol matched by no list entry has no position. -/
theorem posFrom_eq_none (sym : String) (L : List String)
    (h : ∀ s ∈ L, ¬ pyUpper s = sym) : ∀ n, posFrom n sym L = none := by
  induction L with
  | nil => intro n; rfl
  | cons a rest ih =>
    intro n
    have ha : ¬ pyUpper a = sym := h a (by simp)
    simp only [posFrom, beq_iff_eq, ha, if_false]
    exact ih (fun s hs => h s (by simp [hs])) (n + 1)

/-- A symbol matched by no enumerated pair has no last match. -/
theorem lastMatch_eq_none (sym : String) (ps : List (Nat × String))
    (h : ∀ p ∈ ps, ¬ pyUpper p.2 = sym) : lastMatch sym ps = none := by
  induction ps with
  | nil => rfl
  | cons p rest ih =>
    have hp : ¬ pyUpper p.2 = sym := h p (by simp)
    simp only [lastMatch, ih (fun q hq => h q (by simp [hq])), beq_iff_eq, hp, if_false]

/-- The reorder loop rewrites each row to carry the index of the last
enumerated pair matching its symbol, leaving other rows untouched. -/
theorem applyReorderAux_eq_map (ps : List (Nat × String)) (db : List FavoriteRow) :
    applyReorderAux db ps =
      db.map (fun r =>
        { r with sort_order := (lastMatch r.symbol ps).getD r.sort_order }) := by
  induction ps generalizing db with
  | nil =>
    show db = db.map (fun r => { r with sort_order := r.sort_order })
    exact (List.map_id db).symm
  | cons p rest ih =>
    show applyReorderAux (applyReorderStep p db) rest = _
    rw [ih, applyReorderStep, List.map_map]
    congr 1
    funext r
    simp only [Function.comp]
    by_cases hm : r.symbol == pyUpper p.2
    · have hm2 : (pyUpper p.2 == r.symbol) = true :=
        beq_iff_eq.mpr (beq_iff_eq.mp hm).symm
      rw [if_pos hm]
      cases hl : lastMatch r.symbol rest with
      | some j => simp [lastMatch, hl]
      | none => simp [lastMatch, hl, hm2]
    · have hne : ¬ r.symbol = pyUpper p.2 := fun hh => hm (beq_iff_eq.mpr hh)
      have hm2 : (pyUpper p.2 == r.symbol) = false :=
        beq_eq_false_iff_ne.mpr (fun hh => hne hh.symm)
      rw [if_neg hm]
      cases hl : lastMatch r.symbol rest with
      | some j => simp [lastMatch, hl]
      | none => simp [lastMatch, hl, hm2]

/-- When no entry of the list upper-cases to the symbol of a row, the row
has no reorder position. -/
theorem applyReorderAux_nodup (L : List String) (hnd : (L.map pyUpper).Nodup) :
    ∀ (n : Nat) (db : List FavoriteRow),
      applyReorderAux db (List.enumFrom n L) =
        db.map (fun r =>
          { r with sort_order := (posFrom n r.symbol L).getD r.sort_order }) := by
  induction L with
  | nil =>
    intro n db
    show db = _
    exact (List.map_id db).symm
  | cons a rest ih =>
    intro n db
    have hnd2 : (rest.map pyUpper).Nodup := by
      simp only [List.map_cons, List.nodup_cons] at hnd
      exact hnd.2
    have hnotin : pyUpper a ∉ rest.map pyUpper := by
      simp only [List.map_cons, List.nodup_cons] at hnd
      exact hnd.1
    show applyReorderAux (applyReorderStep (n, a) db) (List.enumFrom (n + 1) rest) = _
    rw [ih hnd2, applyReorderStep, List.map_map]
    congr 1
    funext r
    simp only [Function.comp]
    by_cases hm : r.symbol == pyUpper a
    · have hsym : r.symbol = pyUpper a := beq_iff_eq.mp hm
      have hm2 : (pyUpper a == r.symbol) = true := beq_iff_eq.mpr hsym.symm
      have hnone : posFrom (n + 1) r.symbol rest = none := by
        refine posFrom_eq_none r.symbol rest ?_ (n + 1)
        intro s hs heq
        apply hnotin
        rw [← hsym, ← heq]
        exact List.mem_map_of_mem pyUpper hs
      rw [if_pos hm]
      simp [posFrom, hnone, hm2]
    · have hne : ¬ r.symbol = pyUpper a := fun hh => hm (beq_iff_eq.mpr hh)
      have hm2 : (pyUpper a == r.symbol) = false :=
        beq_eq_false_iff_ne.mpr (fun hh => hne hh.symm)
      rw [if_neg hm]
      simp [posFrom, hm2]

/-- Full characterisation of create_paper_trade: a 400 exactly on the spec
rejection condition; insertion of the upper-cased row when the rejection
condition fails and the status passes the CHECK constraint; a 500 when only
the CHECK constraint fails. -/
theorem create_paper_trade_spec (t : PaperTradeCreate) (db : List PaperTradeRow) (id : Nat) :
    (errCode (create_paper_trade t db id) = some 400 ↔ specRejected t = true) ∧
    (specRejected t = false → validStatus t.status = true →
      create_paper_trade t db id = .ok (db ++ [tradeRowOf t id])) ∧
    (specRejected t = false → validStatus t.status = false →
      errCode (create_paper_trade t db id) = some 500) := by
  unfold create_paper_trade insertPaperTrade specRejected
  split_ifs <;> simp_all [errCode, validDirection]

/-- Full characterisation of update_paper_trade on the paths the claims
need: 404 on an unknown id, 400 on a supplied status outside the enum, and
the partial row update otherwise. -/
theorem update_paper_trade_spec (id : Nat) (u : PaperTradeUpdate) (db : List PaperTradeRow) :
    (db.any (fun r => r.id == id) = false →
      update_paper_trade id u db = .error (.http 404 "trade not found")) ∧
    (∀ s, db.any (fun r => r.id == id) = true → u.status = some s →
      validStatus s = false →
      update_paper_trade id u db = .error (.http 400 "invalid trade status")) ∧
    (∀ s, db.any (fun r => r.id == id) = true → u.status = some s →
      validStatus s = true →
      update_paper_trade id u db =
        .ok (db.map (fun r => if r.id == id then applyTradeUpdate u r else r))) := by
  unfold update_paper_trade
  rw [find?_isSome_eq_any]
  refine ⟨?_, ?_, ?_⟩
  · intro h
    simp [h]
  · intro s h hs hvs
    simp [h, hs, hvs]
  · intro s h hs hvs
    simp [h, hs, hvs]

/-- The non-NULL AVG inputs of the statistics query are exactly the realized
values of the closed trades. -/
theorem filterMap_avgTerm (db : List PaperTradeRow) :
    (db.map avgTerm).filterMap id = specClosedPnls db := by
  induction db with
  | nil => rfl
  | cons r rest ih =>
    by_cases h : isClosed r = true
    · cases hp : r.actual_profit_loss <;>
        simp_all [avgTerm, specClosedPnls, List.filter_cons, List.filterMap_cons, h, hp]
    · simp_all [avgTerm, specClosedPnls, List.filter_cons, List.filterMap_cons, h]

/-- A SUM term of the total profit-loss column is NULL exactly for a closed
row without a realized value. -/
theorem pnlTerm_eq_none (r : PaperTradeRow) :
    pnlTerm r = none ↔ (isClosed r = true ∧ r.actual_profit_loss = none) := by
  unfold pnlTerm
  by_cases h : isClosed r = true <;> simp [h]

/-- SQLite SUM of a 0-or-1 indicator column over a non-empty table is the
count of rows passing the test. -/
theorem sqlSum_indicator (p : PaperTradeRow → Bool) (db : List PaperTradeRow)
    (h : ¬ db = []) :
    sqlSum (db.map (fun r => some (if p r then (1 : ℚ) else 0))) =
      some (db.countP p : ℚ) := by
  simp only [sqlSum, filterMap_id_map_some]
  have hne : (db.map (fun r => if p r then (1 : ℚ) else 0)).isEmpty = false := by
    cases db with
    | nil => exact absurd rfl h
    | cons a l => rfl
  simp [hne, sum_indicator]

/-- SQLite SUM of a non-NULL column over a non-empty table is the plain
sum. -/
theorem sqlSum_map_some (f : PaperTradeRow → ℚ) (db : List PaperTradeRow)
    (h : ¬ db = []) :
    sqlSum (db.map (fun r => some (f r))) = some (db.map f).sum := by
  simp only [sqlSum, filterMap_id_map_some]
  have hne : (db.map f).isEmpty = false := by
    cases db with
    | nil => exact absurd rfl h
    | cons a l => rfl
  simp [hne]

/-! ## C1 -/

/-- C1 (amended): a POST /paper-trades request draws a 400 ValidationError
exactly when one of the listed rejection conditions holds.  When none holds
and the status value also passes the CHECK constraint of the DDL, the trade
is appended with its symbol upper-cased; when none holds but the status is
outside the enum, the INSERT itself fails the CHECK constraint, the request
draws a 500 and nothing is persisted. -/
theorem create_trade_validation_amended (t : PaperTradeCreate)
    (db : List PaperTradeRow) (id : Nat) :
    (errCode (create_paper_trade t db id) = some 400 ↔ specRejected t = true) ∧
    (specRejected t = false → validStatus t.status = true →
      create_paper_trade t db id = .ok (db ++ [tradeRowOf t id]) ∧
      (tradeRowOf t id).symbol = pyUpper t.symbol) ∧
    (specRejected t = false → validStatus t.status = false →
      errCode (create_paper_trade t db id) = some 500 ∧
      apiOk (create_paper_trade t db id) = false) := by
  obtain ⟨h1, h2, h3⟩ := create_paper_trade_spec t db id
  refine ⟨h1, fun ha hb => ⟨h2 ha hb, rfl⟩, fun ha hb => ?_⟩
  have h5 := h3 ha hb
  refine ⟨h5, ?_⟩
  cases hc : create_paper_trade t db id with
  | ok v => rw [hc] at h5; simp [errCode] at h5
  | error e => simp [apiOk]

/-- C1 witness: the LONG example of section 8 of the spec passes every
check and is stored with its symbol upper-cased. -/
theorem create_trade_validation_amended_witness :
    specRejected exTradeOk = false ∧ validStatus exTradeOk.status = true ∧
    (create_paper_trade exTradeOk [] 1 = .ok ([] ++ [tradeRowOf exTradeOk 1]) ∧
      (tradeRowOf exTradeOk 1).symbol = pyUpper exTradeOk.symbol) :=
  ⟨by decide, by decide,
    (create_trade_validation_amended exTradeOk [] 1).2.1 (by decide) (by decide)⟩

/-- C1 counterexample: a trade that meets every listed validation condition
but carries the status done is nevertheless not inserted, refuting the
claim that a trade is inserted whenever no listed condition holds. -/
theorem create_trade_validation_cex :
    specRejected exTradeBadStatus = false ∧
    apiOk (create_paper_trade exTradeBadStatus [] 1) = false := by
  exact ⟨by decide, by decide⟩

/-! ## C6 -/

/-- C6 (amended): a PUT carrying a status outside the enum draws a 400 on
an existing trade and a 404 on an unknown id, changing nothing either way;
a POST carrying a status outside the enum passes the handler validation and
fails at the storage CHECK constraint with a 500, inserting nothing. -/
theorem invalid_status_amended :
    (∀ (id : Nat) (u : PaperTradeUpdate) (db : List PaperTradeRow) (s : String),
      db.any (fun r => r.id == id) = true → u.status = some s →
      validStatus s = false →
      update_paper_trade id u db = .error (.http 400 "invalid trade status")) ∧
    (∀ (id : Nat) (u : PaperTradeUpdate) (db : List PaperTradeRow),
      db.any (fun r => r.id == id) = false →
      update_paper_trade id u db = .error (.http 404 "trade not found")) ∧
    (∀ (t : PaperTradeCreate) (db : List PaperTradeRow) (id : Nat),
      specRejected t = false → validStatus t.status = false →
      errCode (create_paper_trade t db id) = some 500 ∧
      apiOk (create_paper_trade t db id) = false) := by
  refine ⟨?_, ?_, ?_⟩
  · intro id u db s h hs hv
    exact (update_paper_trade_spec id u db).2.1 s h hs hv
  · intro id u db h
    exact (update_paper_trade_spec id u db).1 h
  · intro t db id ha hb
    obtain ⟨-, -, h3⟩ := create_paper_trade_spec t db id
    have h5 := h3 ha hb
    refine ⟨h5, ?_⟩
    cases hc : create_paper_trade t db id with
    | ok v => rw [hc] at h5; simp [errCode] at h5
    | error e => simp [apiOk]

/-- C6 witness: updating the stored example trade to the status done draws
the 400 ValidationError. -/
theorem invalid_status_amended_witness :
    [tradeRowOf exTradeOk 1].any (fun r => r.id == 1) = true ∧
    exBadStatusUpdate.status = some "done" ∧
    validStatus "done" = false ∧
    update_paper_trade 1 exBadStatusUpdate [tradeRowOf exTradeOk 1] =
      .error (.http 400 "invalid trade status") :=
  ⟨by decide, rfl, by decide,
    invalid_status_amended.1 1 exBadStatusUpdate [tradeRowOf exTradeOk 1] "done"
      (by decide) rfl (by decide)⟩

/-- C6 counterexample: the POST of a valid-price trade carrying the status
done fails with a 500 from the CHECK constraint, not with the claimed
400. -/
theorem invalid_status_cex :
    validStatus exTradeBadStatus.status = false ∧
    errCode (create_paper_trade exTradeBadStatus [] 1) = some 500 ∧
    ¬ errCode (create_paper_trade exTradeBadStatus [] 1) = some 400 := by
  exact ⟨by decide, by decide, by decide⟩

/-! ## C2 -/

/-- C2 (amended): over a non-empty record set the general statistics count
winning and losing trades exactly as claimed (a closed trade at exactly 0
counted in neither), sum risk_amount over all trades, and sum and average
realized profit-loss over closed trades only — with the SQL NULL
refinements: total_pnl is NULL when every row is a closed trade without a
realized value, and the average runs over the closed trades that have a
realized value.  Over the empty record set the SUM and AVG aggregates are
NULL, not 0 (see the counterexample). -/
theorem stats_general_amended (db : List PaperTradeRow) (h : ¬ db = []) :
    (generalStats db).winning_trades = some (specWinningCount db : ℚ) ∧
    (generalStats db).losing_trades = some (specLosingCount db : ℚ) ∧
    (¬ (∀ r ∈ db, isClosed r = true ∧ r.actual_profit_loss = none) →
      (generalStats db).total_pnl = some (specTotalPnl db)) ∧
    ((∀ r ∈ db, isClosed r = true ∧ r.actual_profit_loss = none) →
      (generalStats db).total_pnl = none) ∧
    ((generalStats db).avg_pnl =
      if specClosedPnls db = [] then none
      else some ((specClosedPnls db).sum / ((specClosedPnls db).length : ℚ))) ∧
    (generalStats db).total_risk_amount = some (specRiskSum db) := by
  have hterm : ∀ r ∈ db, pnlTerm r = none ↔ isClosed r = true ∧ r.actual_profit_loss = none :=
    fun r _ => pnlTerm_eq_none r
  refine ⟨?_, ?_, ?_, ?_, ?_, ?_⟩
  · exact sqlSum_indicator (fun r => isClosed r && pnlPos r) db h
  · exact sqlSum_indicator (fun r => isClosed r && pnlNeg r) db h
  · intro hnall
    have hnall2 : ¬ ∀ o ∈ db.map pnlTerm, o = none := by
      intro hall
      apply hnall
      intro r hr
      exact (pnlTerm_eq_none r).mp (hall (pnlTerm r) (List.mem_map_of_mem pnlTerm hr))
    show sqlSum (db.map pnlTerm) = _
    simp only [sqlSum]
    have hne : ((db.map pnlTerm).filterMap id).isEmpty = false := by
      cases hmm : (db.map pnlTerm).filterMap id with
      | cons a l => rfl
      | nil =>
        exfalso
        apply hnall2
        intro o ho
        have := List.filterMap_eq_nil_iff.mp hmm
        exact this o ho
    simp only [hne, Bool.false_eq_true, if_false]
    congr 1
    rw [filterMap_id_sum_getD, List.map_map]
    show (db.map (fun r => (pnlTerm r).getD 0)).sum = _
    have hfun : (fun r => (pnlTerm r).getD 0) =
        fun r : PaperTradeRow => if isClosed r then r.actual_profit_loss.getD 0 else 0 := by
      funext r
      unfold pnlTerm
      by_cases hc : isClosed r = true <;> simp [hc]
    rw [hfun]
    rfl
  · intro hall
    show sqlSum (db.map pnlTerm) = _
    simp only [sqlSum]
    have hnil : (db.map pnlTerm).filterMap id = [] := by
      rw [List.filterMap_eq_nil_iff]
      intro o ho
      obtain ⟨r, hr, rfl⟩ := List.mem_map.mp ho
      exact (pnlTerm_eq_none r).mpr (hall r hr)
    simp [hnil]
  · show sqlAvg (db.map avgTerm) = _
    simp only [sqlAvg, filterMap_avgTerm]
    by_cases hc : specClosedPnls db = []
    · simp [hc]
    · have hne : (specClosedPnls db).isEmpty = false := by
        cases hcc : specClosedPnls db with
        | nil => exact absurd hcc hc
        | cons a l => rfl
      simp [hne, hc]
  · exact sqlSum_map_some (fun r => r.risk_amount) db h

/-- C2 witness: on the two-trade record set (one closed winner of 8, one
still planned) the winning count, total and risk aggregates are the claimed
non-NULL values. -/
theorem stats_general_amended_witness :
    ¬ exStatsDb = [] ∧
    ¬ (∀ r ∈ exStatsDb, isClosed r = true ∧ r.actual_profit_loss = none) ∧
    (generalStats exStatsDb).winning_trades = some (specWinningCount exStatsDb : ℚ) ∧
    (generalStats exStatsDb).total_pnl = some (specTotalPnl exStatsDb) ∧
    (generalStats exStatsDb).total_risk_amount = some (specRiskSum exStatsDb) := by
  have h := stats_general_amended exStatsDb (by decide)
  exact ⟨by decide, by decide, h.1, h.2.2.1 (by decide), h.2.2.2.2.2⟩

/-- C2 counterexample: over the empty record set winning_trades is NULL
(SQLite SUM over no rows), not the claimed count of closed winning trades,
which is 0. -/
theorem stats_general_cex :
    (generalStats []).winning_trades = none ∧
    ¬ (generalStats []).winning_trades = some (specWinningCount [] : ℚ) := by
  exact ⟨rfl, by decide⟩

/-! ## C3 -/

/-- C3 (amended): on the empty record set GET /paper-trades/stats succeeds;
the total and per-status counts are 0 and the per-symbol and per-direction
breakdowns are empty, but the SUM and AVG aggregates — winning_trades,
losing_trades, total_pnl, avg_pnl and total_risk_amount — are all reported
as NULL (absent), not 0. -/
theorem stats_empty_amended :
    get_paper_trading_stats [] =
      .ok { general :=
              { total_trades := 0
                planned_trades := 0
                active_trades := 0
                closed_trades := 0
                winning_trades := none
                losing_trades := none
                total_pnl := none
                avg_pnl := none
                total_risk_amount := none }
            by_symbol := []
            by_direction := [] } := rfl

/-- C3 counterexample: the claim that every sum is reported as 0 on the
empty record set fails: total_risk_amount and total_pnl are NULL there. -/
theorem stats_empty_cex :
    (generalStats []).total_risk_amount = none ∧
    ¬ (generalStats []).total_risk_amount = some 0 ∧
    ¬ (generalStats []).total_pnl = some 0 := by
  exact ⟨rfl, by decide, by decide⟩

/-! ## C4 -/

/-- C4 (amended): whenever the upper-cased request symbol already names a
stored favorite, POST /favorites fails and no second row is ever created —
but the status code depends on the case of the request: the duplicate check
of the handler compares the raw request symbol, so only an exact raw match
draws the 400 duplicate error, while a request differing in case slips past
the check and fails at the UNIQUE constraint of the INSERT with a 500. -/
theorem duplicate_favorite_amended (f : FavoriteCreate) (db : List FavoriteRow)
    (id tick : Nat) (hdup : db.any (fun r => r.symbol == pyUpper f.symbol) = true) :
    apiOk (add_favorite f db id tick) = false ∧
    (errCode (add_favorite f db id tick) = some 400 ∨
      errCode (add_favorite f db id tick) = some 500) ∧
    (errCode (add_favorite f db id tick) = some 400 ↔
      db.any (fun r => r.symbol == f.symbol) = true) := by
  unfold add_favorite
  rw [find?_isSome_eq_any, find?_isSome_eq_any]
  by_cases hraw : db.any (fun r => r.symbol == f.symbol) = true
  · simp [hraw, apiOk, errCode]
  · simp only [hraw, Bool.false_eq_true, if_false, hdup, if_true]
    simp [apiOk, errCode, hraw]

/-- C4 witness: a raw upper-cased duplicate request draws the 400 duplicate
error; the lower-cased variant of the same symbol draws the 500 instead. -/
theorem duplicate_favorite_amended_witness :
    [favETH].any (fun r => r.symbol == pyUpper reqLowerETH.symbol) = true ∧
    apiOk (add_favorite reqLowerETH [favETH] 2 2) = false ∧
    (errCode (add_favorite reqLowerETH [favETH] 2 2) = some 400 ↔
      [favETH].any (fun r => r.symbol == reqLowerETH.symbol) = true) :=
  ⟨by decide,
    (duplicate_favorite_amended reqLowerETH [favETH] 2 2 (by decide)).1,
    (duplicate_favorite_amended reqLowerETH [favETH] 2 2 (by decide)).2.2⟩

/-- C4 counterexample: with BTCUSDT stored, the lower-cased duplicate
request btcusdt does not draw the claimed 400 duplicate error — it fails
with a 500 from the UNIQUE constraint. -/
theorem duplicate_favorite_cex :
    pyUpper reqLowerBTC.symbol = favBTC.symbol ∧
    ¬ errCode (add_favorite reqLowerBTC [favBTC] 2 2) = some 400 ∧
    errCode (add_favorite reqLowerBTC [favBTC] 2 2) = some 500 := by
  exact ⟨by decide, by decide, by decide⟩

/-- Second components of enumerated pairs are list members. -/
theorem mem_enumFrom_snd {α : Type} (p : Nat × α) (l : List α) :
    ∀ n, p ∈ List.enumFrom n l → p.2 ∈ l := by
  induction l with
  | nil => intro n hp; exact absurd hp (List.not_mem_nil p)
  | cons a rest ih =>
    intro n hp
    simp only [List.enumFrom] at hp
    rcases List.mem_cons.mp hp with h | h
    · rw [h]
      exact List.mem_cons_self a rest
    · exact List.mem_cons_of_mem a (ih (n + 1) h)

/-- The IN (SELECT symbol FROM favorites) membership test coincides with an
any scan of the favorites. -/
theorem contains_map_eq_any (favs : List FavoriteRow) (sym : String) :
    (favs.map (fun f => f.symbol)).contains sym =
      favs.any (fun f => f.symbol == sym) := by
  induction favs with
  | nil => rfl
  | cons f rest ih =>
    simp only [List.map_cons, List.contains_cons, List.any_cons, ih]
    by_cases h : sym = f.symbol
    · subst h
      simp
    · have h2 : (f.symbol == sym) = false := beq_eq_false_iff_ne.mpr (fun hh => h hh.symm)
      have h3 : (sym == f.symbol) = false := beq_eq_false_iff_ne.mpr h
      rw [h2, h3]

/-- Clearing every favorite flag and then setting it on favorite symbols
rewrites each row flag to current favorites membership. -/
theorem setclear_eq_map (favs : List FavoriteRow) (wl : List WatchlistRow) :
    setFavFlags favs (clearFavFlags wl) =
      wl.map (fun r =>
        { r with is_favorite := (favs.map (fun f => f.symbol)).contains r.symbol }) := by
  unfold setFavFlags clearFavFlags
  rw [List.map_map]
  congr 1
  funext r
  show (if (favs.map (fun f => f.symbol)).contains r.symbol
          then ({ r with is_favorite := true } : WatchlistRow)
          else { r with is_favorite := false }) = _
  cases hcc : (favs.map (fun f => f.symbol)).contains r.symbol with
  | true => simp
  | false => simp

/-- No row surviving a deletion filter matches the deleted symbol. -/
theorem any_filter_upper (l : List FavoriteRow) (u : String) :
    ((l.filter (fun r => !(r.symbol == u))).any (fun f => f.symbol == u)) = false := by
  induction l with
  | nil => rfl
  | cons a rest ih =>
    by_cases h : a.symbol == u
    · simp only [List.filter_cons, h, Bool.not_true, Bool.false_eq_true, if_false]
      exact ih
    · have h2 : (a.symbol == u) = false := by
        cases hb : a.symbol == u with
        | true => exact absurd hb h
        | false => rfl
      simp only [List.filter_cons, h2, Bool.not_false, if_true, List.any_cons, ih]
      simp [h2]

/-- The reorder loop only reads the upper-cased forms of the list
entries. -/
theorem applyReorderAux_upper_congr :
    ∀ (L L2 : List String) (n : Nat) (db : List FavoriteRow),
      L.map pyUpper = L2.map pyUpper →
      applyReorderAux db (List.enumFrom n L) =
        applyReorderAux db (List.enumFrom n L2) := by
  intro L
  induction L with
  | nil =>
    intro L2 n db h
    cases L2 with
    | nil => rfl
    | cons b t => simp at h
  | cons a rest ih =>
    intro L2 n db h
    cases L2 with
    | nil => simp at h
    | cons b t =>
      simp only [List.map_cons, List.cons.injEq] at h
      show applyReorderAux (applyReorderStep (n, a) db) (List.enumFrom (n + 1) rest) =
        applyReorderAux (applyReorderStep (n, b) db) (List.enumFrom (n + 1) t)
      rw [show applyReorderStep (n, a) db = applyReorderStep (n, b) db from by
        unfold applyReorderStep
        rw [show pyUpper (n, a).2 = pyUpper (n, b).2 from h.1]]
      exact ih t (n + 1) (applyReorderStep (n, b) db) h.2

/-! ## C5 -/

/-- C5 (amended): under a reorder list with pairwise distinct upper-cased
entries every favorite whose symbol appears in the list receives sort_order
equal to the 0-based position of its symbol and every other favorite keeps
its prior sort_order; the scenario with list B, A, C over favorites A, B, C
yields sort_order A = 1, B = 0, C = 2 and the subsequent GET /favorites
listing order B, A, C (ascending sort_order) — not A, B, C. -/
theorem reorder_positions_amended :
    (∀ (L : List String) (db : List FavoriteRow), (L.map pyUpper).Nodup →
      reorder_favorites L db =
        .ok (db.map (fun r =>
          { r with sort_order := (specNewOrder L r.symbol).getD r.sort_order }))) ∧
    okOf (reorder_favorites ["B", "A", "C"] dbABC) = some dbBAC ∧
    ((dbBAC.find? (fun r => r.symbol == "A")).map (fun r => r.sort_order) = some 1 ∧
      (dbBAC.find? (fun r => r.symbol == "B")).map (fun r => r.sort_order) = some 0 ∧
      (dbBAC.find? (fun r => r.symbol == "C")).map (fun r => r.sort_order) = some 2) ∧
    okOf (get_favorites dbBAC) = some [rowB0, rowA, rowC2] ∧
    [rowB0, rowA, rowC2].map (fun r => r.symbol) = ["B", "A", "C"] := by
  refine ⟨?_, by decide, ⟨by decide, by decide, by decide⟩, by decide, by decide⟩
  intro L db hnd
  unfold reorder_favorites
  rw [show L.enum = List.enumFrom 0 L from rfl, applyReorderAux_nodup L hnd 0 db]
  rfl

/-- C5 witness: the scenario list B, A, C has pairwise distinct upper-cased
entries, so the general assignment clause applies to it. -/
theorem reorder_positions_amended_witness :
    (["B", "A", "C"].map pyUpper).Nodup ∧
    reorder_favorites ["B", "A", "C"] dbABC =
      .ok (dbABC.map (fun r =>
        { r with sort_order :=
            (specNewOrder ["B", "A", "C"] r.symbol).getD r.sort_order })) :=
  ⟨by decide, reorder_positions_amended.1 ["B", "A", "C"] dbABC (by decide)⟩

/-- C5 counterexample: after the reorder list B, A, C the ascending
sort_order listing reads B, A, C, refuting the claimed listing order A, B,
C. -/
theorem reorder_positions_cex :
    okOf (reorder_favorites ["B", "A", "C"] dbABC) = some dbBAC ∧
    okOf (get_favorites dbBAC) = some [rowB0, rowA, rowC2] ∧
    ¬ [rowB0, rowA, rowC2].map (fun r => r.symbol) = ["A", "B", "C"] := by
  exact ⟨by decide, by decide, by decide⟩

/-! ## C10 -/

/-- C10: reorder symbols matching no stored favorite are silently ignored:
the request always succeeds with a 200 (no NotFoundError), a favorite whose
symbol no list entry upper-cases to is returned unchanged, and no field
other than sort_order is ever modified on any row. -/
theorem reorder_unknown_ignored (L : List String) (db : List FavoriteRow) :
    apiOk (reorder_favorites L db) = true ∧
    (∀ r ∈ db, (∀ s ∈ L, ¬ pyUpper s = r.symbol) → r ∈ applyReorderAux db L.enum) ∧
    (applyReorderAux db L.enum).map (fun r => { r with sort_order := 0 }) =
      db.map (fun r => { r with sort_order := 0 }) := by
  refine ⟨rfl, ?_, ?_⟩
  · intro r hr hnone
    rw [applyReorderAux_eq_map]
    have hlm : lastMatch r.symbol L.enum = none := by
      apply lastMatch_eq_none
      intro p hp
      exact hnone p.2 (mem_enumFrom_snd p L 0 hp)
    have hmem := List.mem_map_of_mem
      (fun r : FavoriteRow =>
        ({ r with sort_order := (lastMatch r.symbol L.enum).getD r.sort_order } :
          FavoriteRow)) hr
    simp only [hlm, Option.getD_none] at hmem
    exact hmem
  · rw [applyReorderAux_eq_map, List.map_map]
    congr 1

/-- C10 witness: a reorder list naming only the unknown symbol ZZZ leaves
the stored favorite BTCUSDT untouched and still succeeds. -/
theorem reorder_unknown_ignored_witness :
    apiOk (reorder_favorites ["ZZZ"] [favBTC]) = true ∧
    favBTC ∈ [favBTC] ∧ (∀ s ∈ ["ZZZ"], ¬ pyUpper s = favBTC.symbol) ∧
    favBTC ∈ applyReorderAux [favBTC] (["ZZZ"] : List String).enum :=
  ⟨(reorder_unknown_ignored ["ZZZ"] [favBTC]).1, by decide, by decide,
    (reorder_unknown_ignored ["ZZZ"] [favBTC]).2.1 favBTC (by decide) (by decide)⟩

/-! ## C7 -/

/-- C7: before every GET /watchlist response (absent storage faults) the
favorite flags are recomputed from scratch, so every returned row carries
is_favorite equal to current membership of its symbol in the favorites set;
in particular after a successful DELETE /favorites/symbol the next
watchlist read reports is_favorite = false for that symbol without any
explicit sync call. -/
theorem watchlist_flag_consistency :
    (∀ (favs : List FavoriteRow) (wl rows : List WatchlistRow),
      get_watchlist false favs wl = .ok rows →
      ∀ r ∈ rows, r.is_favorite = favs.any (fun f => f.symbol == r.symbol)) ∧
    (∀ (s : String) (favs favs2 : List FavoriteRow) (wl rows : List WatchlistRow),
      remove_favorite s favs = .ok favs2 →
      get_watchlist false favs2 wl = .ok rows →
      ∀ r ∈ rows, r.symbol = pyUpper s → r.is_favorite = false) := by
  have main : ∀ (favs : List FavoriteRow) (wl rows : List WatchlistRow),
      get_watchlist false favs wl = .ok rows →
      ∀ r ∈ rows, r.is_favorite = (favs.map (fun f => f.symbol)).contains r.symbol := by
    intro favs wl rows hok r hr
    have hrows : sortWatchlist (setFavFlags favs (clearFavFlags wl)) = rows := by
      unfold get_watchlist update_watchlist_favorites at hok
      simpa using hok
    rw [← hrows, mem_sortWatchlist, setclear_eq_map] at hr
    obtain ⟨r0, hr0, rfl⟩ := List.mem_map.mp hr
    rfl
  constructor
  · intro favs wl rows hok r hr
    rw [main favs wl rows hok r hr]
    exact contains_map_eq_any favs r.symbol
  · intro s favs favs2 wl rows hrem hok r hr hsym
    have hfavs2 : favs2 = favs.filter (fun r => !(r.symbol == pyUpper s)) := by
      unfold remove_favorite at hrem
      split at hrem
      · exact (by simpa using hrem : _ = favs2).symm
      · simp at hrem
    rw [main favs2 wl rows hok r hr, contains_map_eq_any, hfavs2, hsym]
    exact any_filter_upper favs (pyUpper s)

/-- C7 witness: with AAA both a favorite and a watchlist entry, the read
returns the row flagged true, matching favorites membership. -/
theorem watchlist_flag_consistency_witness :
    get_watchlist false [favAAA] [wlAAA] = .ok [wlAAAfav] ∧
    wlAAAfav ∈ [wlAAAfav] ∧
    wlAAAfav.is_favorite = [favAAA].any (fun f => f.symbol == wlAAAfav.symbol) :=
  ⟨rfl, by decide,
    watchlist_flag_consistency.1 [favAAA] [wlAAA] [wlAAAfav] rfl wlAAAfav (by decide)⟩

/-! ## C9 -/

/-- C9 (amended): a persistence failure inside the favorite-flag
recomputation of GET /watchlist is logged and swallowed, never surfaced:
the read still succeeds with a 200 and returns the rows with the flags from
before the failed, rolled-back recomputation; without the failure the read
returns freshly recomputed flags. -/
theorem watchlist_fault_swallowed (favs : List FavoriteRow) (wl : List WatchlistRow) :
    get_watchlist true favs wl = .ok (sortWatchlist wl) ∧
    apiOk (get_watchlist true favs wl) = true ∧
    get_watchlist false favs wl =
      .ok (sortWatchlist (setFavFlags favs (clearFavFlags wl))) := by
  exact ⟨rfl, rfl, rfl⟩

/-- C9 counterexample: with an empty favorites table and a stale watchlist
flag, a faulting recomputation inside GET /watchlist surfaces no error at
all — the read succeeds and even reports the stale favorite flag. -/
theorem watchlist_fault_cex :
    apiOk (get_watchlist true [] [wlStale]) = true ∧
    okOf (get_watchlist true [] [wlStale]) = some [wlStale] ∧
    wlStale.is_favorite = true ∧
    ([] : List FavoriteRow).any (fun f => f.symbol == wlStale.symbol) = false := by
  exact ⟨by decide, by decide, by decide, by decide⟩

/-! ## C8 -/

/-- C8 (amended): symbols are upper-cased before storage and before lookup
at every boundary except one.  Every row stored by POST /favorites, POST
/paper-trades or POST /watchlist is a pre-existing row or carries the
upper-cased request symbol; DELETE /favorites, PUT /favorites, POST
/watchlist and the GET /paper-trades symbol filter give the same status
code and the same stored state on any two request symbols with equal
upper-cased forms (raw symbols surface only inside response messages); the
reorder loop depends only on the upper-cased list, and an empty symbol
filter equals no filter.  The single exception is the duplicate check of
POST /favorites, which compares the raw request symbol (see the
counterexample). -/
theorem symbol_normalization_amended :
    (∀ (s s2 : String) (db : List FavoriteRow), pyUpper s = pyUpper s2 →
      errCode (remove_favorite s db) = errCode (remove_favorite s2 db) ∧
      okOf (remove_favorite s db) = okOf (remove_favorite s2 db)) ∧
    (∀ (s s2 : String) (u : FavoriteUpdate) (db : List FavoriteRow),
      pyUpper s = pyUpper s2 →
      errCode (update_favorite s u db) = errCode (update_favorite s2 u db) ∧
      okOf (update_favorite s u db) = okOf (update_favorite s2 u db)) ∧
    (∀ (L L2 : List String) (db : List FavoriteRow),
      L.map pyUpper = L2.map pyUpper →
      reorder_favorites L db = reorder_favorites L2 db) ∧
    (∀ (s s2 : String) (db : List WatchlistRow) (id : Nat), pyUpper s = pyUpper s2 →
      errCode (add_to_watchlist s db id) = errCode (add_to_watchlist s2 db id) ∧
      okOf (add_to_watchlist s db id) = okOf (add_to_watchlist s2 db id)) ∧
    (∀ (st : Option String) (s s2 : String) (db : List PaperTradeRow),
      pyUpper s = pyUpper s2 → ¬ s = "" → ¬ s2 = "" →
      get_paper_trades st (some s) db = get_paper_trades st (some s2) db) ∧
    (∀ (st : Option String) (db : List PaperTradeRow),
      get_paper_trades st (some "") db = get_paper_trades st none db) ∧
    (∀ (f : FavoriteCreate) (db : List FavoriteRow) (id tick : Nat)
        (db2 : List FavoriteRow), add_favorite f db id tick = .ok db2 →
      ∀ r ∈ db2, r ∈ db ∨ r.symbol = pyUpper f.symbol) ∧
    (∀ (t : PaperTradeCreate) (db : List PaperTradeRow) (id : Nat)
        (db2 : List PaperTradeRow), create_paper_trade t db id = .ok db2 →
      ∀ r ∈ db2, r ∈ db ∨ r.symbol = pyUpper t.symbol) ∧
    (∀ (s : String) (db : List WatchlistRow) (id : Nat) (db2 : List WatchlistRow),
      add_to_watchlist s db id = .ok db2 →
      ∀ r ∈ db2, r ∈ db ∨ r.symbol = pyUpper s) := by
  refine ⟨?_, ?_, ?_, ?_, ?_, ?_, ?_, ?_, ?_⟩
  · intro s s2 db h
    unfold remove_favorite
    rw [h]
    by_cases hc : (db.find? (fun r => r.symbol == pyUpper s2)).isSome = true
    · simp [hc]
    · simp [hc, errCode, okOf]
  · intro s s2 u db h
    unfold update_favorite
    rw [h]
    by_cases hc : (db.find? (fun r => r.symbol == pyUpper s2)).isSome = true
    · simp [hc]
    · simp [hc, errCode, okOf]
  · intro L L2 db h
    unfold reorder_favorites
    show Except.ok (applyReorderAux db (List.enumFrom 0 L)) = _
    rw [applyReorderAux_upper_congr L L2 0 db h]
    rfl
  · intro s s2 db id h
    unfold add_to_watchlist
    rw [h]
    by_cases hc : (db.find? (fun r => r.symbol == pyUpper s2)).isSome = true
    · simp [hc, errCode, okOf]
    · simp [hc]
  · intro st s s2 db h hs hs2
    unfold get_paper_trades
    have hb : (s == "") = false := beq_eq_false_iff_ne.mpr hs
    have hb2 : (s2 == "") = false := beq_eq_false_iff_ne.mpr hs2
    have hfun : (fun r : PaperTradeRow => s == "" || r.symbol == pyUpper s) =
        (fun r : PaperTradeRow => s2 == "" || r.symbol == pyUpper s2) := by
      funext r
      rw [h, hb, hb2]
    show Except.ok ((db.filter _).filter
        (fun r : PaperTradeRow => s == "" || r.symbol == pyUpper s)) = _
    rw [hfun]
  · intro st db
    unfold get_paper_trades
    have hfun : (fun r : PaperTradeRow => ("" : String) == "" || r.symbol == pyUpper "") =
        (fun _ : PaperTradeRow => true) := by
      funext r
      simp
    show Except.ok ((db.filter _).filter
        (fun r : PaperTradeRow => ("" : String) == "" || r.symbol == pyUpper "")) = _
    rw [hfun]
  · intro f db id tick db2 hok r hr
    unfold add_favorite at hok
    split_ifs at hok
    rw [Except.ok.injEq] at hok
    subst hok
    rcases List.mem_append.mp hr with hmem | hmem
    · exact Or.inl hmem
    · right
      rw [List.mem_singleton.mp hmem]
  · intro t db id db2 hok r hr
    unfold create_paper_trade insertPaperTrade at hok
    split_ifs at hok <;>
      (rw [Except.ok.injEq] at hok
       subst hok
       rcases List.mem_append.mp hr with hmem | hmem
       · exact Or.inl hmem
       · right
         rw [List.mem_singleton.mp hmem]
         exact rfl)
  · intro s db id db2 hok r hr
    unfold add_to_watchlist at hok
    split_ifs at hok
    rw [Except.ok.injEq] at hok
    subst hok
    rcases List.mem_append.mp hr with hmem | hmem
    · exact Or.inl hmem
    · right
      rw [List.mem_singleton.mp hmem]

/-- C8 witness: the lower-cased request a and the upper-cased request A
share an upper-cased form, so deleting either from any favorites table
gives the same status code and the same resulting table. -/
theorem symbol_normalization_amended_witness :
    pyUpper "a" = pyUpper "A" ∧
    (errCode (remove_favorite "a" [favBTC]) = errCode (remove_favorite "A" [favBTC]) ∧
      okOf (remove_favorite "a" [favBTC]) = okOf (remove_favorite "A" [favBTC])) :=
  ⟨by decide, symbol_normalization_amended.1 "a" "A" [favBTC] (by decide)⟩

/-- C8 counterexample: two favorite requests whose symbols differ only in
case receive different status codes (400 for the raw duplicate, 500 for the
lower-cased one), so the duplicate lookup of POST /favorites compares a
symbol in its raw, non-upper-cased form. -/
theorem symbol_normalization_cex :
    pyUpper reqLowerBTC.symbol = pyUpper reqUpperBTC.symbol ∧
    ¬ errCode (add_favorite reqLowerBTC [favBTC] 2 2) =
      errCode (add_favorite reqUpperBTC [favBTC] 2 2) := by
  exact ⟨by decide, by decide⟩
